import Mathlib

/-!
Verification of the ESR tunneling-junction repository: the model library
(esr/models.py) and the fitting engine (esr/fitting.py).

Voltage and current arrays are modelled as lists of real numbers.  The numpy
elementwise operations used by the source are embedded as explicit maps and
zips, one Lean definition per broadcast pattern, so each model function below
follows its Python body statement by statement.
-/

namespace ESR

/-- Elementwise `xs / c` (numpy array divided by a scalar, as in `V / 2.0`). -/
noncomputable def arrDivScalar (xs : List ℝ) (c : ℝ) : List ℝ := xs.map (fun x => x / c)

/-- Elementwise `c - xs` (scalar minus numpy array, as in `barrier_height - V / 2.0`). -/
noncomputable def scalarSubArr (c : ℝ) (xs : List ℝ) : List ℝ := xs.map (fun x => c - x)

/-- Elementwise `c + xs` (scalar plus numpy array, as in `avg_barrier_height + asymmetry * V`). -/
noncomputable def scalarAddArr (c : ℝ) (xs : List ℝ) : List ℝ := xs.map (fun x => c + x)

/-- Elementwise `c * xs` (scalar times numpy array, as in `A * V`). -/
noncomputable def scalarMulArr (c : ℝ) (xs : List ℝ) : List ℝ := xs.map (fun x => c * x)

/-- Elementwise product of two numpy arrays, as in `(A * V) * np.exp(...)`. -/
noncomputable def arrMulArr (xs ys : List ℝ) : List ℝ := List.zipWith (fun x y => x * y) xs ys

/-- The numpy call `np.maximum(xs, c)` with a scalar second argument. -/
noncomputable def npMaximum (xs : List ℝ) (c : ℝ) : List ℝ := xs.map (fun x => max x c)

/-- The numpy call `np.sqrt(xs)`. -/
noncomputable def npSqrt (xs : List ℝ) : List ℝ := xs.map Real.sqrt

/-- The numpy call `np.exp(xs)`. -/
noncomputable def npExp (xs : List ℝ) : List ℝ := xs.map Real.exp

/-- Simplified Simmons current density, from `esr/models.py`:
`effective = np.maximum(barrier_height - V / 2.0, 0)` followed by
`A * V * np.exp(-B * barrier_thickness * np.sqrt(effective))`
with `A = 1e5` and `B = 10.0`. -/
noncomputable def simmons_current_density (V : List ℝ)
    (barrier_height barrier_thickness : ℝ) : List ℝ :=
  let A : ℝ := 1e5
  let B : ℝ := 10.0
  let effective := npMaximum (scalarSubArr barrier_height (arrDivScalar V 2.0)) 0
  arrMulArr (scalarMulArr A V)
    (npExp (scalarMulArr (-B * barrier_thickness) (npSqrt effective)))

/-- Simplified Brinkman–Dynes–Rowell current density, from `esr/models.py`:
`effective = np.maximum(avg_barrier_height + asymmetry * V, 0)` followed by
`A * V * np.exp(-B * barrier_thickness * np.sqrt(effective))`
with `A = 1e5` and `B = 10.0`. -/
noncomputable def bdr_current_density (V : List ℝ)
    (avg_barrier_height barrier_thickness asymmetry : ℝ) : List ℝ :=
  let A : ℝ := 1e5
  let B : ℝ := 10.0
  let effective := npMaximum (scalarAddArr avg_barrier_height (scalarMulArr asymmetry V)) 0
  arrMulArr (scalarMulArr A V)
    (npExp (scalarMulArr (-B * barrier_thickness) (npSqrt effective)))

/-! Helper lemmas collapsing the staged numpy pipelines into fused
per-element closed forms. -/

/-- Elementwise product of two maps over the same list fuses into one map. -/
theorem arrMulArr_map_map (f g : ℝ → ℝ) (l : List ℝ) :
    arrMulArr (l.map f) (l.map g) = l.map (fun x => f x * g x) := by
  induction l with
  | nil => rfl
  | cons a t ih =>
      simp only [List.map_cons, arrMulArr, List.zipWith_cons_cons] at ih ⊢
      rw [ih]

/-- The Simmons pipeline equals the fused per-element closed form. -/
theorem simmons_map_form (V : List ℝ) (h s : ℝ) :
    simmons_current_density V h s
      = V.map (fun v => 1e5 * v * Real.exp (-(10.0 : ℝ) * s * Real.sqrt (max (h - v / 2.0) 0))) := by
  simp only [simmons_current_density, npMaximum, scalarSubArr, arrDivScalar, scalarMulArr,
    npSqrt, npExp, List.map_map, Function.comp]
  rw [arrMulArr_map_map]
  rfl

/-- The BDR pipeline equals the fused per-element closed form. -/
theorem bdr_map_form (V : List ℝ) (h s a : ℝ) :
    bdr_current_density V h s a
      = V.map (fun v => 1e5 * v * Real.exp (-(10.0 : ℝ) * s * Real.sqrt (max (h + a * v) 0))) := by
  simp only [bdr_current_density, npMaximum, scalarAddArr, scalarMulArr,
    npSqrt, npExp, List.map_map, Function.comp]
  rw [arrMulArr_map_map]
  rfl

/-- `getD` of a mapped list at an in-range index applies the function to
the corresponding `getD` of the original list. -/
theorem getD_map_of_lt (f : ℝ → ℝ) (l : List ℝ) (i : ℕ) (hi : i < l.length) (d e : ℝ) :
    (l.map f).getD i d = f (l.getD i e) := by
  induction l generalizing i with
  | nil => simp at hi
  | cons a t ih =>
      cases i with
      | zero => simp [List.getD_cons_zero]
      | succ n =>
          simp only [List.map_cons, List.getD_cons_succ]
          exact ih n (by simpa using hi)

/-! The fitting engine of `esr/fitting.py`.  A model, as consumed by scipy
`curve_fit`, takes the voltage array and the parameter vector (`curve_fit`
unpacks the vector positionally into the trailing arguments of the Python
model function).  `fit_model` is parametric in the optimizer: the source
delegates to the external `scipy.optimize.curve_fit`, whose internals are
outside this repository, so the optimizer is an explicit argument and the
theorems below quantify over it. -/

/-- A model function as `curve_fit` sees it: voltage array and parameter
vector to predicted current array. -/
def ModelFn : Type := List ℝ → List ℝ → List ℝ

/-- The shape of `scipy.optimize.curve_fit` as invoked by the source:
arguments `(f, xdata, ydata, p0, maxfev)`, result of type `α`. -/
def Optimizer (α : Type) : Type := ModelFn → List ℝ → List ℝ → List ℝ → ℕ → α

/-- `fit_model` from `esr/fitting.py`: its whole body is
`popt, pcov = curve_fit(model, V, J, p0=p0, maxfev=20000); return popt, pcov`. -/
def fit_model {α : Type} (curve_fit : Optimizer α) (V J : List ℝ) (model : ModelFn)
    (p0 : List ℝ) : α :=
  curve_fit model V J p0 20000

/-- `models.simmons_current_density` as passed to `curve_fit`: the parameter
vector is unpacked positionally into `(barrier_height, barrier_thickness)`. -/
noncomputable def simmonsModelFn : ModelFn :=
  fun V ps => simmons_current_density V (ps.getD 0 0) (ps.getD 1 0)

/-- `models.bdr_current_density` as passed to `curve_fit`: the parameter
vector is unpacked positionally into
`(avg_barrier_height, barrier_thickness, asymmetry)`. -/
noncomputable def bdrModelFn : ModelFn :=
  fun V ps => bdr_current_density V (ps.getD 0 0) (ps.getD 1 0) (ps.getD 2 0)

/-- `fit_simmons` from `esr/fitting.py`: `p0 = (1.0, 1.0)` then
`return fit_model(V, J, models.simmons_current_density, p0)`. -/
noncomputable def fit_simmons {α : Type} (curve_fit : Optimizer α) (V J : List ℝ) : α :=
  let p0 : List ℝ := [1.0, 1.0]
  fit_model curve_fit V J simmonsModelFn p0

/-- `fit_bdr` from `esr/fitting.py`: `p0 = (1.0, 1.0, 0.0)` then
`return fit_model(V, J, models.bdr_current_density, p0)`. -/
noncomputable def fit_bdr {α : Type} (curve_fit : Optimizer α) (V J : List ℝ) : α :=
  let p0 : List ℝ := [1.0, 1.0, 0.0]
  fit_model curve_fit V J bdrModelFn p0

/-! Error taxonomy.  The specification postulates three repository error
classes; the exceptions an actual `curve_fit` call can surface are the
Python built-ins scipy raises.  Both are represented so that claims about
which failure a caller observes can be stated. -/

/-- The error classes named by the specification. -/
inductive ESRError where
  | dimensionError
  | dataError
  | convergenceError

/-- Exceptions observable from a `curve_fit` call: the Python built-ins
scipy raises, or one of the error classes the specification postulates. -/
inductive PyException where
  | runtimeError
  | valueError
  | typeError
  | esr (e : ESRError)

/-- Outcome of a fit call: an exception, or the `(popt, pcov)` pair. -/
def FitOutcome : Type := Except PyException (List ℝ × List (List ℝ))

/-- A probe optimizer that returns successfully with a sentinel value,
recording that the optimizer was invoked at all. -/
def cfOk : Optimizer FitOutcome := fun _ _ _ _ _ => Except.ok ([], [])

/-- A probe optimizer behaving as scipy `curve_fit` does when the function
evaluation budget `maxfev` is exhausted: it raises `RuntimeError`. -/
def cfExhaust : Optimizer FitOutcome := fun _ _ _ _ _ => Except.error PyException.runtimeError

/-! State-passing versions for the frame claim.  The arrays the caller owns
are an explicit state threaded through each operation; every statement of
the Python bodies only reads `V` and `J` and binds fresh arrays, so the
state component of each result is the state that came in. -/

/-- The two arrays owned by the caller of the fitting engine. -/
structure Arrays where
  V : List ℝ
  J : List ℝ

/-- `simmons_current_density` with the caller arrays as explicit state. -/
noncomputable def simmons_current_density_st (st : Arrays)
    (barrier_height barrier_thickness : ℝ) : List ℝ × Arrays :=
  let A : ℝ := 1e5
  let B : ℝ := 10.0
  let effective := npMaximum (scalarSubArr barrier_height (arrDivScalar st.V 2.0)) 0
  (arrMulArr (scalarMulArr A st.V)
    (npExp (scalarMulArr (-B * barrier_thickness) (npSqrt effective))), st)

/-- `bdr_current_density` with the caller arrays as explicit state. -/
noncomputable def bdr_current_density_st (st : Arrays)
    (avg_barrier_height barrier_thickness asymmetry : ℝ) : List ℝ × Arrays :=
  let A : ℝ := 1e5
  let B : ℝ := 10.0
  let effective := npMaximum (scalarAddArr avg_barrier_height (scalarMulArr asymmetry st.V)) 0
  (arrMulArr (scalarMulArr A st.V)
    (npExp (scalarMulArr (-B * barrier_thickness) (npSqrt effective))), st)

/-- `fit_model` with the caller arrays as explicit state: the body contains
one call and a return, assigning to neither array. -/
def fit_model_st {α : Type} (curve_fit : Optimizer α) (st : Arrays) (model : ModelFn)
    (p0 : List ℝ) : α × Arrays :=
  (curve_fit model st.V st.J p0 20000, st)

/-- `fit_simmons` with the caller arrays as explicit state. -/
noncomputable def fit_simmons_st {α : Type} (curve_fit : Optimizer α) (st : Arrays) :
    α × Arrays :=
  let p0 : List ℝ := [1.0, 1.0]
  fit_model_st curve_fit st simmonsModelFn p0

/-- `fit_bdr` with the caller arrays as explicit state. -/
noncomputable def fit_bdr_st {α : Type} (curve_fit : Optimizer α) (st : Arrays) :
    α × Arrays :=
  let p0 : List ℝ := [1.0, 1.0, 0.0]
  fit_model_st curve_fit st bdrModelFn p0

/-- An instrumented probe optimizer: alongside its (trivial) result it reports
having performed `min 3 budget` function evaluations, respecting the budget. -/
def cfCount : Optimizer (Unit × ℕ) := fun _ _ _ _ budget => ((), min 3 budget)

/-! Claims. -/

/-- C1: for every voltage array `V` (the empty array yielding the empty
result) and finite barrier height and thickness, `simmons_current_density`
returns elementwise `A * v * exp(-B * thickness * sqrt(max(height - v/2, 0)))`
with `A = 1e5` and `B = 10.0`; in particular a zero voltage sample yields a
zero output sample. -/
theorem simmons_current_density_correct (V : List ℝ) (h s : ℝ) :
    simmons_current_density V h s
        = V.map (fun v => 1e5 * v * Real.exp (-(10.0 : ℝ) * s * Real.sqrt (max (h - v / 2.0) 0)))
    ∧ simmons_current_density [] h s = []
    ∧ ∀ i : ℕ, i < V.length → V.getD i 1 = 0 →
        (simmons_current_density V h s).getD i 1 = 0 := by
  refine ⟨simmons_map_form V h s, by rw [simmons_map_form]; rfl, ?_⟩
  intro i hi hzero
  rw [simmons_map_form, getD_map_of_lt _ V i hi 1 1, hzero]
  simp

/-- Witness for C1 at `V = [0]`, barrier height 1, thickness 1: the sample is
in range and zero, and the output sample is zero. -/
theorem simmons_current_density_correct_witness :
    (0 < ([(0 : ℝ)]).length ∧ ([(0 : ℝ)]).getD 0 1 = 0)
    ∧ (simmons_current_density [(0 : ℝ)] 1 1).getD 0 1 = 0 :=
  ⟨⟨by simp, by simp⟩,
    (simmons_current_density_correct [(0 : ℝ)] 1 1).2.2 0 (by simp) (by simp)⟩

/-- C2: for every voltage array and finite average barrier height, thickness
and asymmetry, `bdr_current_density` returns elementwise
`A * v * exp(-B * thickness * sqrt(max(height + asymmetry * v, 0)))`
with `A = 1e5` and `B = 10.0`. -/
theorem bdr_current_density_correct (V : List ℝ) (h s a : ℝ) :
    bdr_current_density V h s a
      = V.map (fun v => 1e5 * v * Real.exp (-(10.0 : ℝ) * s * Real.sqrt (max (h + a * v) 0))) :=
  bdr_map_form V h s a

/-- C6: the argument of the square root is non-negative for every element of
the clamped effective-barrier array in both models, and on the clamp path
(effective barrier at most 0) the exponential saturates at `exp 0 = 1`, so the
output sample equals `A * v` exactly. -/
theorem models_clamp_safety (V : List ℝ) (h s a : ℝ) :
    (∀ x ∈ npMaximum (scalarSubArr h (arrDivScalar V 2.0)) 0, 0 ≤ x)
    ∧ (∀ x ∈ npMaximum (scalarAddArr h (scalarMulArr a V)) 0, 0 ≤ x)
    ∧ (∀ i : ℕ, i < V.length → h - V.getD i 1 / 2.0 ≤ 0 →
        (simmons_current_density V h s).getD i 1 = 1e5 * V.getD i 1)
    ∧ (∀ i : ℕ, i < V.length → h + a * V.getD i 1 ≤ 0 →
        (bdr_current_density V h s a).getD i 1 = 1e5 * V.getD i 1) := by
  refine ⟨?_, ?_, ?_, ?_⟩
  · intro x hx
    simp only [npMaximum, List.mem_map] at hx
    obtain ⟨y, _, rfl⟩ := hx
    exact le_max_right y 0
  · intro x hx
    simp only [npMaximum, List.mem_map] at hx
    obtain ⟨y, _, rfl⟩ := hx
    exact le_max_right y 0
  · intro i hi hclamp
    rw [simmons_map_form, getD_map_of_lt _ V i hi 1 1,
      max_eq_right hclamp, Real.sqrt_zero, mul_zero, Real.exp_zero, mul_one]
  · intro i hi hclamp
    rw [bdr_map_form, getD_map_of_lt _ V i hi 1 1,
      max_eq_right hclamp, Real.sqrt_zero, mul_zero, Real.exp_zero, mul_one]

/-- Witness for C6: the Simmons clamp path at `V = [4]`, height 1 (effective
barrier -1) and the BDR clamp path at `V = [1]`, height -1, asymmetry 0. -/
theorem models_clamp_safety_witness :
    ((1 : ℝ) - ([(4 : ℝ)]).getD 0 1 / 2.0 ≤ 0
      ∧ (simmons_current_density [(4 : ℝ)] 1 1).getD 0 1 = 1e5 * ([(4 : ℝ)]).getD 0 1)
    ∧ ((-1 : ℝ) + 0 * ([(1 : ℝ)]).getD 0 1 ≤ 0
      ∧ (bdr_current_density [(1 : ℝ)] (-1) 1 0).getD 0 1 = 1e5 * ([(1 : ℝ)]).getD 0 1) :=
  ⟨⟨by norm_num, (models_clamp_safety [(4 : ℝ)] 1 1 0).2.2.1 0 (by simp) (by norm_num)⟩,
   ⟨by norm_num, (models_clamp_safety [(1 : ℝ)] (-1) 1 0).2.2.2 0 (by simp) (by norm_num)⟩⟩

/-- C10: the BDR model with asymmetry fixed at -1/2 coincides element for
element with the Simmons model on every voltage array and parameters. -/
theorem bdr_neg_half_is_simmons (V : List ℝ) (h s : ℝ) :
    bdr_current_density V h s (-0.5) = simmons_current_density V h s := by
  rw [bdr_map_form, simmons_map_form]
  refine List.map_congr_left ?_
  intro v _
  have hv : h + (-0.5 : ℝ) * v = h - v / 2.0 := by norm_num; ring
  rw [hv]

/-- C7: `fit_simmons` and `fit_bdr` are exactly `fit_model` at the documented
default initial guesses `(1.0, 1.0)` and `(1.0, 1.0, 0.0)` with the matching
model function, and those model functions are the current-density functions
with the parameter vector unpacked positionally. -/
theorem wrappers_delegate {α : Type} (cf : Optimizer α) (V J : List ℝ) (h s a : ℝ) :
    fit_simmons cf V J = fit_model cf V J simmonsModelFn [1.0, 1.0]
    ∧ fit_bdr cf V J = fit_model cf V J bdrModelFn [1.0, 1.0, 0.0]
    ∧ simmonsModelFn V [h, s] = simmons_current_density V h s
    ∧ bdrModelFn V [h, s, a] = bdr_current_density V h s a :=
  ⟨rfl, rfl, rfl, rfl⟩

/-- C8: `fit_model` hands the solver the evaluation budget 20000, so any
solver that respects its budget argument performs at most 20000 model
evaluations in any fit invocation. -/
theorem fit_model_eval_budget {α : Type} (cf : Optimizer (α × ℕ))
    (hcf : ∀ model V J p0 budget, (cf model V J p0 budget).2 ≤ budget)
    (V J : List ℝ) (model : ModelFn) (p0 : List ℝ) :
    (fit_model cf V J model p0).2 ≤ 20000 :=
  hcf model V J p0 20000

/-- Witness for C8 with the instrumented probe optimizer on empty data. -/
theorem fit_model_eval_budget_witness :
    (∀ model V J p0 budget, (cfCount model V J p0 budget).2 ≤ budget)
    ∧ (fit_model cfCount [] [] simmonsModelFn []).2 ≤ 20000 :=
  ⟨fun _ _ _ _ budget => min_le_right 3 budget,
   fit_model_eval_budget cfCount (fun _ _ _ _ budget => min_le_right 3 budget) [] []
     simmonsModelFn []⟩

/-- C9: none of the fitting entry points nor the model functions mutate the
caller arrays: the state each stateful version returns equals the state it
received, and the value computed agrees with the pure functions applied to the
unchanged arrays. -/
theorem engine_preserves_inputs {α : Type} (cf : Optimizer α) (st : Arrays)
    (model : ModelFn) (p0 : List ℝ) (h s a : ℝ) :
    (simmons_current_density_st st h s).2 = st
    ∧ (bdr_current_density_st st h s a).2 = st
    ∧ (fit_model_st cf st model p0).2 = st
    ∧ (fit_simmons_st cf st).2 = st
    ∧ (fit_bdr_st cf st).2 = st
    ∧ (simmons_current_density_st st h s).1 = simmons_current_density st.V h s
    ∧ (bdr_current_density_st st h s a).1 = bdr_current_density st.V h s a
    ∧ (fit_model_st cf st model p0).1 = fit_model cf st.V st.J model p0 :=
  ⟨rfl, rfl, rfl, rfl, rfl, rfl, rfl, rfl⟩

/-- C3 counterexample: at `V` of length 2 and `J` of length 3, `fit_model`
does not fail with a DimensionError; the optimizer is invoked and its sentinel
result is returned verbatim. -/
theorem fit_model_length_mismatch_counterexample :
    ([(1 : ℝ), 2]).length ≠ ([(1 : ℝ), 2, 3]).length
    ∧ fit_model cfOk [(1 : ℝ), 2] [(1 : ℝ), 2, 3] simmonsModelFn [1.0, 1.0]
        = Except.ok ([], [])
    ∧ fit_model cfOk [(1 : ℝ), 2] [(1 : ℝ), 2, 3] simmonsModelFn [1.0, 1.0]
        ≠ Except.error (PyException.esr ESRError.dimensionError) := by
  refine ⟨by simp, rfl, ?_⟩
  intro hcontra
  exact Except.noConfusion hcontra

/-- C3 amended: `fit_model` performs no dimension validation of its own; even
when the lengths of `V` and `J` differ (or the guess length differs from the
model arity) it invokes the optimizer, passing model, arrays, guess and the
budget 20000 through unchanged, and any length failure arises inside the
external optimizer. -/
theorem fit_model_no_dimension_check {α : Type} (cf : Optimizer α) (V J : List ℝ)
    (model : ModelFn) (p0 : List ℝ) (_hlen : V.length ≠ J.length) :
    fit_model cf V J model p0 = cf model V J p0 20000 := rfl

/-- Witness for amended C3 at mismatched lengths 2 and 3. -/
theorem fit_model_no_dimension_check_witness :
    ([(1 : ℝ), 2]).length ≠ ([(1 : ℝ), 2, 3]).length
    ∧ fit_model cfOk [(1 : ℝ), 2] [(1 : ℝ), 2, 3] simmonsModelFn [1.0, 1.0]
        = cfOk simmonsModelFn [(1 : ℝ), 2] [(1 : ℝ), 2, 3] [1.0, 1.0] 20000 :=
  ⟨by simp,
   fit_model_no_dimension_check cfOk [(1 : ℝ), 2] [(1 : ℝ), 2, 3] simmonsModelFn [1.0, 1.0]
     (by simp)⟩

/-- C4 counterexample: one data point against a two-parameter guess, yet
`fit_model` does not fail with a DataError; the optimizer is invoked and its
sentinel result is returned verbatim. -/
theorem fit_model_underdetermined_counterexample :
    ([(1 : ℝ)]).length < ([(1.0 : ℝ), 1.0]).length
    ∧ fit_model cfOk [(1 : ℝ)] [(2 : ℝ)] simmonsModelFn [1.0, 1.0] = Except.ok ([], [])
    ∧ fit_model cfOk [(1 : ℝ)] [(2 : ℝ)] simmonsModelFn [1.0, 1.0]
        ≠ Except.error (PyException.esr ESRError.dataError) := by
  refine ⟨by simp, rfl, ?_⟩
  intro hcontra
  exact Except.noConfusion hcontra

/-- C4 amended: `fit_model` performs no sample-count validation; even with
fewer data points than free parameters it invokes the optimizer with all
arguments passed through unchanged, and the underdetermined case is left to
the external optimizer to report. -/
theorem fit_model_no_data_check {α : Type} (cf : Optimizer α) (V J : List ℝ)
    (model : ModelFn) (p0 : List ℝ) (_hcount : V.length < p0.length) :
    fit_model cf V J model p0 = cf model V J p0 20000 := rfl

/-- Witness for amended C4 with one sample and a two-parameter guess. -/
theorem fit_model_no_data_check_witness :
    ([(1 : ℝ)]).length < ([(1.0 : ℝ), 1.0]).length
    ∧ fit_model cfOk [(1 : ℝ)] [(2 : ℝ)] simmonsModelFn [1.0, 1.0]
        = cfOk simmonsModelFn [(1 : ℝ)] [(2 : ℝ)] [1.0, 1.0] 20000 :=
  ⟨by simp,
   fit_model_no_data_check cfOk [(1 : ℝ)] [(2 : ℝ)] simmonsModelFn [1.0, 1.0] (by simp)⟩

/-- C5 counterexample: when the optimizer exhausts its evaluation budget and
raises RuntimeError, as scipy `curve_fit` does at `maxfev`, `fit_model`
surfaces that RuntimeError unchanged and not a ConvergenceError. -/
theorem fit_model_exhaustion_counterexample :
    fit_model cfExhaust [(1 : ℝ), 2] [(0.5 : ℝ), 1] simmonsModelFn [1.0, 1.0]
        = Except.error PyException.runtimeError
    ∧ fit_model cfExhaust [(1 : ℝ), 2] [(0.5 : ℝ), 1] simmonsModelFn [1.0, 1.0]
        ≠ Except.error (PyException.esr ESRError.convergenceError) := by
  refine ⟨rfl, ?_⟩
  intro hcontra
  exact PyException.noConfusion (Except.error.inj hcontra)

/-- C5 amended: `fit_model` returns the optimizer outcome verbatim, with no
translation into a ConvergenceError and no post-processing: whatever exception
the optimizer raises, or whatever parameter/covariance pair it returns (such
as the non-finite covariance scipy returns on a singular Jacobian), is exactly
what the caller of `fit_model` observes. -/
theorem fit_model_surfaces_optimizer_outcome (cf : Optimizer FitOutcome) (V J : List ℝ)
    (model : ModelFn) (p0 : List ℝ) (out : FitOutcome)
    (hcf : cf model V J p0 20000 = out) :
    fit_model cf V J model p0 = out := hcf

/-- Witness for amended C5 with the budget-exhausting probe optimizer. -/
theorem fit_model_surfaces_optimizer_outcome_witness :
    cfExhaust simmonsModelFn [] [] [] 20000 = Except.error PyException.runtimeError
    ∧ fit_model cfExhaust [] [] simmonsModelFn [] = Except.error PyException.runtimeError :=
  ⟨rfl,
   fit_model_surfaces_optimizer_outcome cfExhaust [] [] simmonsModelFn []
     (Except.error PyException.runtimeError) rfl⟩

end ESR
